import Mathlib

/-!
Verification development for the firmware-update orchestration core of
`redfish-core/lib/update_service.hpp` (OpenBMC web server).

The C++ file is shallowly embedded: global pointer variables become booleans
recording whether the pointer is non-null, asynchronous callbacks become pure
state-transition functions, and the HTTP response becomes an explicit list of
emitted client-facing messages.  D-Bus variants become a small inductive type.
All definitions are translated from the source file; the few pieces of this
repository that live outside the given source (the JSON reader, the multipart
header parser, the task framework of `task.hpp`) are modelled from the spec and
marked as such in their doc comments.
-/

/-- Client-facing messages written to the HTTP response (`messages::...` calls
in the source), and task-log messages.  Arguments are kept positionally as in
the source calls. -/
inductive Message where
  | serviceTemporarilyUnavailable (retryAfter : String)
  | internalError
  | invalidUpload (url : String) (reason : String)
  | resourceAlreadyExists (a : String) (b : String) (c : String)
  | resourceExhaustion (url : String)
  | propertyValueFormatError (a : String) (b : String)
  | propertyValueNotInList (a : String) (b : String)
  | propertyMissing (p : String)
  | actionParameterValueTypeError (a : String) (b : String) (c : String)
  | actionParameterNotSupported (a : String) (b : String)
  | successMsg
  | badRequest
  | readJsonError
  | taskStarted
  | taskAborted (index : String)
  | taskPaused (index : String)
  | taskCompletedOK (index : String)
  | taskProgressChanged (index : String) (pct : Nat)
  deriving DecidableEq, Repr

/-- A D-Bus variant value as observed by the callbacks
(`std::get_if<std::string>` / `std::get_if<uint8_t>` in the source). -/
inductive DbusVariant where
  | str (s : String)
  | byte (n : Nat)
  | other
  deriving DecidableEq, Repr

/-- The four process-wide session variables of the orchestrator
(`update_service.hpp` lines 44-54).  Each `std::unique_ptr` global is modelled
by a boolean that is `true` exactly when the pointer is non-null. -/
structure SessionState where
  fwUpdateInProgress : Bool
  fwUpdateMatcher : Bool
  fwUpdateErrorMatcher : Bool
  fwAvailableTimer : Bool
  deriving DecidableEq, Repr

/-- The state at process start: flag clear, all pointers null. -/
def initState : SessionState :=
  { fwUpdateInProgress := false
    fwUpdateMatcher := false
    fwUpdateErrorMatcher := false
    fwAvailableTimer := false }

/-- `cleanUp()` (source lines 56-61): clears the in-progress flag and the two
match pointers.  Note the source does not touch `fwAvailableTimer`. -/
def cleanUp (s : SessionState) : SessionState :=
  { s with
    fwUpdateInProgress := false
    fwUpdateMatcher := false
    fwUpdateErrorMatcher := false }

/-- Error-code classification for the availability timer's `async_wait`
handler. -/
inductive TimerEc where
  | success
  | operationAborted
  | otherError
  deriving DecidableEq, Repr

/-- The availability timer's expiry handler (source lines 289-309).  It always
runs `cleanUp()` first; it returns silently on `operation_aborted` and on other
errors, and writes `internalError` only on a plain expiry with an attached
client response. -/
def fwAvailableTimerCallback (s : SessionState) (ec : TimerEc)
    (hasAsyncResp : Bool) : SessionState × List Message :=
  let s1 := cleanUp s
  match ec with
  | .operationAborted => (s1, [])
  | .otherError => (s1, [])
  | .success => (s1, if hasAsyncResp then [.internalError] else [])

/-- Entry of `monitorForSoftwareAvailable` (source lines 269-328): if an update
is already in progress, answer `serviceTemporarilyUnavailable("30")` and change
nothing; otherwise arm the availability timer, set the in-progress flag and
create both bus matchers. -/
def monitorForSoftwareAvailable (s : SessionState) (hasAsyncResp : Bool) :
    SessionState × List Message :=
  if s.fwUpdateInProgress then
    (s, if hasAsyncResp then [.serviceTemporarilyUnavailable "30"] else [])
  else
    ({ fwUpdateInProgress := true
       fwUpdateMatcher := true
       fwUpdateErrorMatcher := true
       fwAvailableTimer := true }, [])

/-- The `getDbusObject` reply inside `softwareInterfaceAdded` (source lines
101-260), fused with the preceding match firing: on a bus error or when the
object is not owned by exactly one service, report `internalError` (when a
response is attached) and `cleanUp()`; on success null the availability timer,
fire the activation request, create the task when a response is attached, and
clear the in-progress flag.  Note the two match pointers are left untouched on
the success path. -/
def softwareInterfaceAddedReply (s : SessionState) (ecFail : Bool)
    (objInfoCount : Nat) (hasAsyncResp : Bool) : SessionState × List Message :=
  if ecFail then
    (cleanUp s, if hasAsyncResp then [.internalError] else [])
  else if objInfoCount ≠ 1 then
    (cleanUp s, if hasAsyncResp then [.internalError] else [])
  else
    ({ s with fwAvailableTimer := false, fwUpdateInProgress := false },
      if hasAsyncResp then [.taskStarted] else [])

/-- `uploadImageFile` (source lines 532-551) as it affects session state: when
the stream write fails (`out.bad()`), write `internalError` and `cleanUp()`;
otherwise no state change.  The file body itself is threaded by the callers. -/
def uploadImageFile (s : SessionState) (writeBad : Bool) :
    SessionState × List Message :=
  if writeBad then (cleanUp s, [.internalError]) else (s, [])

def loggingEntryIface : String := "xyz.openbmc_project.Logging.Entry"

def unTarFailureErr : String :=
  "xyz.openbmc_project.Software.Image.Error.UnTarFailure"
def manifestFailureErr : String :=
  "xyz.openbmc_project.Software.Image.Error.ManifestFileFailure"
def imageFailureErr : String :=
  "xyz.openbmc_project.Software.Image.Error.ImageFailure"
def alreadyExistsErr : String :=
  "xyz.openbmc_project.Software.Version.Error.AlreadyExists"
def busyFailureErr : String :=
  "xyz.openbmc_project.Software.Image.Error.BusyFailure"

/-- The if/else-if classification chain of the error matcher (source lines
356-398), producing the messages appended for one string-typed `Message`
property. -/
def classifyLogMessage (type : String) (url : String) : List Message :=
  if type = unTarFailureErr then
    [.invalidUpload url "Invalid archive"]
  else if type = manifestFailureErr then
    [.invalidUpload url "Invalid manifest"]
  else if type = imageFailureErr then
    [.invalidUpload url "Invalid image format"]
  else if type = alreadyExistsErr then
    [.invalidUpload url "Image version already exists",
     .resourceAlreadyExists "UpdateService" "Version" "uploaded version"]
  else if type = busyFailureErr then
    [.resourceExhaustion url]
  else
    [.internalError]

/-- Inner loop of the error matcher over one `Logging.Entry` interface's
properties (source lines 340-399).  A non-`Message` property is skipped; a
`Message` property whose variant is not a string returns from the whole
callback (third component `true`); a string-typed `Message` nulls the
availability timer and appends its classification, and the loop continues. -/
def processLogValues (s : SessionState) (url : String) :
    List (String × DbusVariant) → SessionState × List Message × Bool
  | [] => (s, [], false)
  | (name, v) :: rest =>
    if name ≠ "Message" then processLogValues s url rest
    else
      match v with
      | .str type =>
        let s1 := { s with fwAvailableTimer := false }
        let r := processLogValues s1 url rest
        (r.1, classifyLogMessage type url ++ r.2.1, r.2.2)
      | _ => (s, [], true)

/-- Outer loop of the error matcher over the added interfaces (source lines
329-402): only `xyz.openbmc_project.Logging.Entry` interfaces are scanned; an
early return from the inner loop ends the whole callback. -/
def fwUpdateErrorCallback (s : SessionState) (url : String) :
    List (String × List (String × DbusVariant)) → SessionState × List Message
  | [] => (s, [])
  | (iname, values) :: rest =>
    if iname = loggingEntryIface then
      let r := processLogValues s url values
      if r.2.2 then (r.1, r.2.1)
      else
        let r2 := fwUpdateErrorCallback r.1 url rest
        (r2.1, r.2.1 ++ r2.2)
    else fwUpdateErrorCallback s url rest

/-!  Multipart update path (`updateMultipartContext`, `setApplyTime`,
`handleUpdateServicePost`).  -/

/-- Modelled from the spec: the content of an `UpdateParameters` part as seen
through the JSON reader.  JSON body parsing and `json_util::readJson` (the
"JSON body parsing/validation" plumbing declared out of scope by the spec and
not present under `src/`) are represented by the pre-parsed result: `malformed`
when the reader rejects the body (it writes its own validation message,
abstracted as `Message.readJsonError`), or the `Targets` list together with the
optional `@Redfish.OperationApplyTime` field. -/
inductive ParamsContent where
  | malformed
  | fields (targets : List String) (applyTime : Option String)
  deriving DecidableEq, Repr

/-- One MIME form part.  Modelled from the spec: multipart body decoding
(`MultipartParser`, `boost::beast::http::param_list`) is out-of-scope plumbing,
so the `Content-Disposition` header is represented as `none` when the header is
absent and otherwise as the parsed parameter list of its value (an empty list
when the value holds no `;`, in which case the source's `param_list` loop body
never runs).  `content` is the raw part body and `paramsContent` is the parse
of that body used when the part is named `UpdateParameters`. -/
structure FormPart where
  contentDisposition : Option (List (String × String))
  content : String
  paramsContent : ParamsContent
  deriving DecidableEq, Repr

def bmcTargetUrl : String := "/redfish/v1/Managers/bmc"

/-- Result of the part-scanning loop of `updateMultipartContext`. -/
inductive ScanResult where
  | earlyReturn (msgs : List Message)
  | completedScan (uploadData : Option String) (targetFound : Bool)
      (applyTime : String)
  deriving DecidableEq, Repr

/-- The `param_list` loop of `updateMultipartContext` for one part (source
lines 617-654): parameters not named `name` (or with an empty value) are
skipped; `name="UpdateParameters"` parses the body, validates `Targets`
(exactly one element, equal to `/redfish/v1/Managers/bmc`) and records the
apply time; `name="UpdateFile"` records the part body as the upload data.
Errors return from the whole function (`Except.error` carries the messages
written). -/
def processParamList (content : String) (pc : ParamsContent) :
    List (String × String) → Option String → Bool → String →
    Except (List Message) (Option String × Bool × String)
  | [], ud, tf, at_ => .ok (ud, tf, at_)
  | (n, v) :: rest, ud, tf, at_ =>
    if n ≠ "name" ∨ v = "" then processParamList content pc rest ud tf at_
    else if v = "UpdateParameters" then
      match pc with
      | .malformed => .error [.readJsonError]
      | .fields targets fApply =>
        let at1 := match fApply with
          | some a => a
          | none => at_
        if targets.length ≠ 1 then
          .error [.propertyValueFormatError "Targets" ""]
        else if targets.headD "" ≠ bmcTargetUrl then
          .error [.propertyValueNotInList "Targets/0" (targets.headD "")]
        else
          processParamList content pc rest ud true at1
    else if v = "UpdateFile" then
      processParamList content pc rest (some content) tf at_
    else
      processParamList content pc rest ud tf at_

/-- The outer loop of `updateMultipartContext` over the MIME parts (source
lines 599-655): a part without a `Content-Disposition` header returns from the
whole function with nothing written; otherwise its parameter list is
processed. -/
def processParts : List FormPart → Option String → Bool → String → ScanResult
  | [], ud, tf, at_ => .completedScan ud tf at_
  | p :: rest, ud, tf, at_ =>
    match p.contentDisposition with
    | none => .earlyReturn []
    | some params =>
      match processParamList p.content p.paramsContent params ud tf at_ with
      | .error msgs => .earlyReturn msgs
      | .ok (ud1, tf1, at1) => processParts rest ud1 tf1 at1

/-- `setApplyTime` (source lines 553-590) as it affects the response on the
synchronous path: an apply time other than `Immediate` or `OnReset` writes
`propertyValueNotInList` and returns; otherwise the D-Bus set is dispatched and
its `success`/`internalError` message arrives later in the asynchronous
completion, outside this function. -/
def setApplyTimeMsgs (applyTime : String) : List Message :=
  if applyTime = "Immediate" then []
  else if applyTime = "OnReset" then []
  else [.propertyValueNotInList applyTime "ApplyTime"]

/-- `updateMultipartContext` (source lines 592-672): scan the parts (initial
state: no upload data, target not found, apply time `"OnReset"`); then require
the upload data and the target, set the apply time and write the file.  Returns
the new session state, the messages written, and the file body written (if
any). -/
def updateMultipartContext (s : SessionState) (writeBad : Bool)
    (parts : List FormPart) : SessionState × List Message × Option String :=
  match processParts parts none false "OnReset" with
  | .earlyReturn msgs => (s, msgs, none)
  | .completedScan ud tf at_ =>
    match ud with
    | none => (s, [.propertyMissing "UpdateFile"], none)
    | some body =>
      if tf = false then (s, [.propertyMissing "targets"], none)
      else
        let u := uploadImageFile s writeBad
        (u.1, setApplyTimeMsgs at_ ++ u.2, some body)

/-- The request body kinds distinguished by `handleUpdateServicePost`'s
`Content-Type` dispatch; for multipart, `parseOk` records whether
`parser.parse(req)` returned `PARSER_SUCCESS` and `parts` the decoded MIME
parts. -/
inductive ContentKind where
  | octetStream
  | multipartForm (parseOk : Bool) (parts : List FormPart)
  | otherType
  deriving DecidableEq, Repr

/-- `handleUpdateServicePost` (source lines 674-720).  Note that on both upload
branches `monitorForSoftwareAvailable` runs before the body is parsed or
validated.  Returns the new session state, the messages written and the file
body written (if any). -/
def handleUpdateServicePost (s : SessionState) (ck : ContentKind)
    (body : String) (writeBad : Bool) :
    SessionState × List Message × Option String :=
  match ck with
  | .octetStream =>
    let r := monitorForSoftwareAvailable s true
    let u := uploadImageFile r.1 writeBad
    (u.1, r.2 ++ u.2, some body)
  | .multipartForm parseOk parts =>
    let r := monitorForSoftwareAvailable s true
    if parseOk = false then (r.1, r.2 ++ [.internalError], none)
    else
      let m := updateMultipartContext r.1 writeBad parts
      (m.1, r.2 ++ m.2.1, m.2.2)
  | .otherType => (s, [.badRequest], none)

/-!  SimpleUpdate URI handling.  -/

/-- C++ `std::string::find(char)`: index of the first occurrence, or `none`
for `npos`. -/
def strFind (s : String) (c : Char) : Option Nat :=
  List.findIdx? (fun x => x = c) s.data

/-- C++ `std::string::substr(pos)`: `none` models the `std::out_of_range`
exception thrown when `pos` exceeds the string's size. -/
def cppSubstrFrom (s : String) (pos : Nat) : Option String :=
  if pos ≤ s.length then some (s.drop pos) else none

/-- Outcome of the `TransferProtocol`-absent branch of the SimpleUpdate
handler. -/
inductive SimpleUpdateStep where
  | typeError
  | outOfRange
  | adjusted (protocol : String) (rest : String)
  deriving DecidableEq, Repr

/-- The `TransferProtocol`-absent branch of the SimpleUpdate POST handler
(source lines 440-467): find `:` in `ImageURI`; absence (or a separator past
the end) is `actionParameterValueTypeError`; otherwise the protocol is the
upper-cased prefix and the URI is re-sliced with `substr(separator + 3)`, which
throws `std::out_of_range` (modelled as `outOfRange`) when `separator + 3`
exceeds the string size. -/
def adjustImageURI (imageURI : String) : SimpleUpdateStep :=
  match strFind imageURI ':' with
  | none => .typeError
  | some separator =>
    if separator + 1 > imageURI.length then .typeError
    else
      let protocol := (imageURI.take separator).toUpper
      match cppSubstrFrom imageURI (separator + 3) with
      | none => .outOfRange
      | some rest => .adjusted protocol rest

/-!  Task state machine (`softwareInterfaceAdded`'s `createTask` callback).  -/

def activationIface : String := "xyz.openbmc_project.Software.Activation"
def progressIface : String := "xyz.openbmc_project.Software.ActivationProgress"

/-- C++ `std::string::ends_with`: exact, case-sensitive suffix test. -/
def endsWithS (s suf : String) : Bool :=
  List.isSuffixOf suf.data s.data

/-- The `TaskData` fields touched by the update-service callback.
`extendedTimerMinutes` records the argument of the last `extendTimer` call (in
minutes), `none` while untouched. -/
structure TaskData where
  index : Nat
  state : String
  status : String
  percentComplete : Nat
  messages : List Message
  extendedTimerMinutes : Option Nat
  deriving DecidableEq, Repr

/-- Modelled from the spec: a freshly created task starts `Running` with an
`OK` status, zero percent complete and an empty message log (the `TaskData`
constructor lives in `task.hpp`, which is not under `src/`; the spec gives the
initial state `Running` and the `percentComplete`/`messages` fields). -/
def initialTask (index : Nat) : TaskData :=
  { index := index
    state := "Running"
    status := "OK"
    percentComplete := 0
    messages := []
    extendedTimerMinutes := none }

/-- The property loop for the `Activation` interface (source lines 158-177):
scan left to right; an `Activation` property whose variant is not a string
raises the internal-error return at that point (`Except.error`); otherwise the
resulting state value is the last string seen (the pointer is overwritten on
every match), or `none` when no `Activation` property occurs. -/
def findActivationValue :
    List (String × DbusVariant) → Except Unit (Option String)
  | [] => .ok none
  | (n, v) :: rest =>
    if n = "Activation" then
      match v with
      | .str sv =>
        match findActivationValue rest with
        | .error e => .error e
        | .ok none => .ok (some sv)
        | .ok (some s2) => .ok (some s2)
      | _ => .error ()
    else findActivationValue rest

/-- The property loop for the `ActivationProgress` interface (source lines
216-234), same shape as `findActivationValue` with `std::get_if<uint8_t>`. -/
def findProgressValue :
    List (String × DbusVariant) → Except Unit (Option Nat)
  | [] => .ok none
  | (n, v) :: rest =>
    if n = "Progress" then
      match v with
      | .byte p =>
        match findProgressValue rest with
        | .error e => .error e
        | .ok none => .ok (some p)
        | .ok (some p2) => .ok (some p2)
      | _ => .error ()
    else findProgressValue rest

/-- The task's property-changed callback (source lines 141-251).  Inputs: the
bus-level error code `ec2`, the changed interface and its property list, and
the current task data.  Returns the updated task data and the C++ return value
(`true` = `task::completed`). -/
def taskCallback (ec2 : Bool) (iface : String)
    (values : List (String × DbusVariant)) (t : TaskData) : TaskData × Bool :=
  if ec2 then (t, true)
  else
    let index := toString t.index
    if iface = activationIface then
      match findActivationValue values with
      | .error _ =>
        ({ t with messages := t.messages ++ [.internalError] }, true)
      | .ok none => (t, false)
      | .ok (some sv) =>
        if endsWithS sv "Invalid" || endsWithS sv "Failed" then
          ({ t with
              state := "Exception"
              status := "Warning"
              messages := t.messages ++ [.taskAborted index] }, true)
        else if endsWithS sv "Staged" then
          ({ t with
              state := "Stopping"
              messages := t.messages ++ [.taskPaused index]
              extendedTimerMinutes := some 300 }, false)
        else if endsWithS sv "Active" then
          ({ t with
              state := "Completed"
              messages := t.messages ++ [.taskCompletedOK index] }, true)
        else (t, false)
    else if iface = progressIface then
      match findProgressValue values with
      | .error _ =>
        ({ t with messages := t.messages ++ [.internalError] }, true)
      | .ok none => (t, false)
      | .ok (some p) =>
        ({ t with
            percentComplete := p
            messages := t.messages ++ [.taskProgressChanged index p]
            extendedTimerMinutes := some 5 }, false)
    else (t, false)

/-- A task together with the liveness of its bus match and watchdog timer. -/
structure TrackedTask where
  td : TaskData
  matchAlive : Bool
  timerArmed : Bool
  deriving DecidableEq, Repr

/-- Modelled from the spec: the task framework (`task.hpp`, not under `src/`)
invokes the in-source callback on each signal delivered while the match is
alive; a `task::completed` result is terminal and triggers disposal (the timer
is cancelled and the match released).  Per the spec, state writes are performed
by the callback's transition rules, and disposal releases the subscription and
cancels the timer. -/
def taskSignalStep (tk : TrackedTask) (ec2 : Bool) (iface : String)
    (values : List (String × DbusVariant)) : TrackedTask :=
  if tk.matchAlive = false then tk
  else
    let r := taskCallback ec2 iface values tk.td
    if r.2 then { td := r.1, matchAlive := false, timerArmed := false }
    else { tk with td := r.1 }

/-- Fold a sequence of delivered progress percentages through the task
callback. -/
def applyProgressSignals (t : TaskData) (ps : List Nat) : TaskData :=
  ps.foldl
    (fun tcur p =>
      (taskCallback false progressIface [("Progress", .byte p)] tcur).1) t

/-- The `percentComplete` value observed after each signal of a delivered
progress sequence. -/
def observedPercents (t : TaskData) : List Nat → List Nat
  | [] => []
  | p :: rest =>
    let t2 := (taskCallback false progressIface [("Progress", .byte p)] t).1
    t2.percentComplete :: observedPercents t2 rest

/-!  Session-level event system and reachability.  -/

/-- The asynchronous events that mutate the four session globals, each carrying
the data its callback reads.  `swAdded` fuses the software-path match firing on
an `InterfacesAdded` carrying the Activation interface with its `getDbusObject`
reply (the match handler itself mutates nothing before that reply).
`tftpReply` is the `DownloadViaTFTP` completion (source lines 510-523), which
runs `cleanUp()` on error. -/
inductive Event where
  | monitor (hasAsyncResp : Bool)
  | timerExpiry (ec : TimerEc) (hasAsyncResp : Bool)
  | swAdded (ecFail : Bool) (objInfoCount : Nat) (hasAsyncResp : Bool)
  | errorLog (url : String)
      (ifaces : List (String × List (String × DbusVariant)))
  | uploadWrite (writeBad : Bool)
  | tftpReply (ecFail : Bool)
  deriving Repr

/-- One event-loop callback applied to the session state. -/
def stepEvent (s : SessionState) : Event → SessionState
  | .monitor hasResp => (monitorForSoftwareAvailable s hasResp).1
  | .timerExpiry ec hasResp => (fwAvailableTimerCallback s ec hasResp).1
  | .swAdded ecFail count hasResp =>
    (softwareInterfaceAddedReply s ecFail count hasResp).1
  | .errorLog url ifaces => (fwUpdateErrorCallback s url ifaces).1
  | .uploadWrite writeBad => (uploadImageFile s writeBad).1
  | .tftpReply ecFail => if ecFail then cleanUp s else s

/-- Session states reachable from process start by any sequence of event-loop
callbacks. -/
inductive Reachable : SessionState → Prop where
  | init : Reachable initState
  | step (s : SessionState) (e : Event) :
      Reachable s → Reachable (stepEvent s e)

/-!  Concrete request fixtures.  -/

/-- An `UpdateParameters` part with the given targets and no explicit apply
time. -/
def paramsPartOf (targets : List String) : FormPart :=
  { contentDisposition := some [("name", "UpdateParameters")]
    content := "{}"
    paramsContent := .fields targets none }

/-- An `UpdateFile` part carrying the image bytes. -/
def updateFilePart : FormPart :=
  { contentDisposition := some [("name", "UpdateFile")]
    content := "IMG"
    paramsContent := .malformed }

/-- A form part with no `Content-Disposition` header. -/
def noHeaderPart : FormPart :=
  { contentDisposition := none
    content := ""
    paramsContent := .malformed }

/-!  Helper lemmas.  -/

/-- The error-matcher inner loop only ever touches the availability timer:
flag and matchers are preserved. -/
theorem processLogValues_pres (url : String) :
    ∀ (values : List (String × DbusVariant)) (s : SessionState),
      (processLogValues s url values).1.fwUpdateInProgress
          = s.fwUpdateInProgress ∧
      (processLogValues s url values).1.fwUpdateMatcher = s.fwUpdateMatcher ∧
      (processLogValues s url values).1.fwUpdateErrorMatcher
          = s.fwUpdateErrorMatcher := by
  intro values
  induction values with
  | nil => intro s; exact ⟨rfl, rfl, rfl⟩
  | cons hd rest ih =>
    intro s
    obtain ⟨name, v⟩ := hd
    by_cases hn : name = "Message"
    · cases v with
      | str t =>
        have h := ih { s with fwAvailableTimer := false }
        simpa [processLogValues, hn] using h
      | byte n => simp [processLogValues, hn]
      | other => simp [processLogValues, hn]
    · simpa [processLogValues, hn] using ih s

/-- The error-matcher callback preserves the flag and both matchers. -/
theorem fwUpdateErrorCallback_pres (url : String) :
    ∀ (ifaces : List (String × List (String × DbusVariant)))
      (s : SessionState),
      (fwUpdateErrorCallback s url ifaces).1.fwUpdateInProgress
          = s.fwUpdateInProgress ∧
      (fwUpdateErrorCallback s url ifaces).1.fwUpdateMatcher
          = s.fwUpdateMatcher ∧
      (fwUpdateErrorCallback s url ifaces).1.fwUpdateErrorMatcher
          = s.fwUpdateErrorMatcher := by
  intro ifaces
  induction ifaces with
  | nil => intro s; exact ⟨rfl, rfl, rfl⟩
  | cons hd rest ih =>
    intro s
    obtain ⟨iname, values⟩ := hd
    by_cases hi : iname = loggingEntryIface
    · by_cases hstop : (processLogValues s url values).2.2 = true
      · simpa [fwUpdateErrorCallback, hi, hstop] using
          processLogValues_pres url values s
      · rw [Bool.not_eq_true] at hstop
        have h1 := processLogValues_pres url values s
        have h2 := ih (processLogValues s url values).1
        simp only [fwUpdateErrorCallback, hi, if_pos rfl, hstop]
        simp only [Bool.false_eq_true, if_false]
        exact ⟨h2.1.trans h1.1, h2.2.1.trans h1.2.1, h2.2.2.trans h1.2.2⟩
    · simpa [fwUpdateErrorCallback, hi] using ih s

/-- One event-loop step preserves the invariant "in-progress implies both
matchers are live". -/
theorem stepEvent_pres_flagMatchers (s : SessionState) (e : Event)
    (h : s.fwUpdateInProgress = true →
      s.fwUpdateMatcher = true ∧ s.fwUpdateErrorMatcher = true) :
    (stepEvent s e).fwUpdateInProgress = true →
      (stepEvent s e).fwUpdateMatcher = true ∧
      (stepEvent s e).fwUpdateErrorMatcher = true := by
  cases e with
  | monitor hasResp =>
    by_cases hf : s.fwUpdateInProgress = true
    · simpa [stepEvent, monitorForSoftwareAvailable, hf] using h
    · simp [stepEvent, monitorForSoftwareAvailable, hf]
  | timerExpiry ec hasResp =>
    cases ec <;> simp [stepEvent, fwAvailableTimerCallback, cleanUp]
  | swAdded ecFail count hasResp =>
    by_cases he : ecFail = true
    · simp [stepEvent, softwareInterfaceAddedReply, he, cleanUp]
    · by_cases hc : count = 1
      · simp [stepEvent, softwareInterfaceAddedReply, he, hc]
      · simp [stepEvent, softwareInterfaceAddedReply, he, hc, cleanUp]
  | errorLog url ifaces =>
    have hp := fwUpdateErrorCallback_pres url ifaces s
    intro hflag
    simp only [stepEvent] at hflag ⊢
    rw [hp.2.1, hp.2.2]
    exact h (hp.1 ▸ hflag)
  | uploadWrite writeBad =>
    by_cases hw : writeBad = true
    · simp [stepEvent, uploadImageFile, hw, cleanUp]
    · simpa [stepEvent, uploadImageFile, hw] using h
  | tftpReply ecFail =>
    by_cases he : ecFail = true
    · simp [stepEvent, he, cleanUp]
    · simpa [stepEvent, he] using h

/-- `observedPercents` returns exactly the delivered progress sequence: every
delivered byte is stored verbatim. -/
theorem observedPercents_eq (ps : List Nat) :
    ∀ t : TaskData, observedPercents t ps = ps := by
  induction ps with
  | nil => intro t; rfl
  | cons p rest ih =>
    intro t
    simp only [observedPercents, List.cons.injEq]
    exact ⟨rfl, ih _⟩

/-!  Claim theorems.  -/

/-- C1 (counterexample): a multipart upload with two entries in `Targets` is
rejected with `propertyValueFormatError` and no file is written, but — contrary
to the claim — the single-flight flag is set, both bus matchers are created and
the availability timer is armed before validation runs, because
`handleUpdateServicePost` calls `monitorForSoftwareAvailable` before parsing
the parts. -/
theorem c1_two_targets_rejected_after_side_effects :
    handleUpdateServicePost initState
        (.multipartForm true [paramsPartOf [bmcTargetUrl, bmcTargetUrl]])
        "" false
      = (⟨true, true, true, true⟩,
         [.propertyValueFormatError "Targets" ""], none) := rfl

/-- C1 (amended): every malformed/missing-parts multipart request (empty
target list, two targets, mismatched target, missing file, missing targets) is
rejected with its distinct validation error and no file is written, but
orchestration has already begun: after the handler returns, the single-flight
flag is set, both bus matchers exist and the availability timer is armed. -/
theorem c1_validation_rejections_no_file_after_orchestration :
    (handleUpdateServicePost initState
        (.multipartForm true [paramsPartOf []]) "" false
      = (⟨true, true, true, true⟩,
         [.propertyValueFormatError "Targets" ""], none)) ∧
    (handleUpdateServicePost initState
        (.multipartForm true [paramsPartOf [bmcTargetUrl, bmcTargetUrl]])
        "" false
      = (⟨true, true, true, true⟩,
         [.propertyValueFormatError "Targets" ""], none)) ∧
    (handleUpdateServicePost initState
        (.multipartForm true [paramsPartOf ["/redfish/v1/Managers/xyz"]])
        "" false
      = (⟨true, true, true, true⟩,
         [.propertyValueNotInList "Targets/0" "/redfish/v1/Managers/xyz"],
         none)) ∧
    (handleUpdateServicePost initState
        (.multipartForm true [paramsPartOf [bmcTargetUrl]]) "" false
      = (⟨true, true, true, true⟩, [.propertyMissing "UpdateFile"], none)) ∧
    (handleUpdateServicePost initState
        (.multipartForm true [updateFilePart]) "" false
      = (⟨true, true, true, true⟩, [.propertyMissing "targets"], none)) :=
  ⟨rfl, rfl, rfl, rfl, rfl⟩

/-- C2 (counterexample): the state reached by arming the session and then
letting the availability timer expire is reachable, has the in-progress flag
false, and still holds a non-null timer pointer (`cleanUp` does not release
it) — so the claimed iff between the flag and "some resource is non-null"
fails, and the three resources are not destroyed together. -/
theorem c2_iff_fails_after_timer_expiry :
    Reachable (stepEvent (stepEvent initState (Event.monitor true))
      (Event.timerExpiry TimerEc.success true)) ∧
    (stepEvent (stepEvent initState (Event.monitor true))
      (Event.timerExpiry TimerEc.success true)).fwUpdateInProgress = false ∧
    (stepEvent (stepEvent initState (Event.monitor true))
      (Event.timerExpiry TimerEc.success true)).fwAvailableTimer = true :=
  ⟨Reachable.step _ _ (Reachable.step _ _ Reachable.init), rfl, rfl⟩

/-- C2 (amended): in every reachable session state, if the in-progress flag is
set then both bus matchers are non-null.  (The converse of the claimed iff
fails, and the timer is not tied to the flag: see the counterexample.) -/
theorem c2_inprogress_implies_matchers (s : SessionState) (h : Reachable s)
    (hf : s.fwUpdateInProgress = true) :
    s.fwUpdateMatcher = true ∧ s.fwUpdateErrorMatcher = true := by
  induction h with
  | init => exact absurd hf (by decide)
  | step s1 e h1 ih => exact stepEvent_pres_flagMatchers s1 e ih hf

/-- Witness for `c2_inprogress_implies_matchers` at the state right after
`monitorForSoftwareAvailable` arms the session. -/
theorem c2_inprogress_implies_matchers_witness :
    (stepEvent initState (Event.monitor true)).fwUpdateMatcher = true ∧
    (stepEvent initState (Event.monitor true)).fwUpdateErrorMatcher = true :=
  c2_inprogress_implies_matchers _ (Reachable.step _ _ Reachable.init) rfl

/-- C3 (counterexample): `cleanUp` run from the fully armed state leaves the
availability timer pointer non-null, so it does not release all three
resources and its result is not the fully released state. -/
theorem c3_cleanup_leaves_timer :
    (cleanUp ⟨true, true, true, true⟩).fwAvailableTimer = true ∧
    cleanUp ⟨true, true, true, true⟩ ≠ ⟨false, false, false, false⟩ :=
  ⟨rfl, by decide⟩

/-- C3 (amended): `cleanUp` is idempotent and, from any state, clears the
in-progress flag and releases both subscriptions; it leaves the availability
timer pointer exactly as it was. -/
theorem c3_cleanup_idempotent_partial_release (s : SessionState) :
    cleanUp (cleanUp s) = cleanUp s ∧
    (cleanUp s).fwUpdateInProgress = false ∧
    (cleanUp s).fwUpdateMatcher = false ∧
    (cleanUp s).fwUpdateErrorMatcher = false ∧
    (cleanUp s).fwAvailableTimer = s.fwAvailableTimer :=
  ⟨rfl, rfl, rfl, rfl, rfl⟩

/-- C4 (counterexample): the expiry handler invoked with `operation_aborted`
from the fully armed state does mutate session state — it runs `cleanUp()`
before inspecting the error code, clearing the flag and both matchers — even
though it writes no response. -/
theorem c4_aborted_expiry_mutates_state :
    fwAvailableTimerCallback ⟨true, true, true, true⟩
        TimerEc.operationAborted true
      = (⟨false, false, false, true⟩, []) ∧
    (⟨false, false, false, true⟩ : SessionState) ≠ ⟨true, true, true, true⟩ :=
  ⟨rfl, by decide⟩

/-- C4 (amended): the availability timer's expiry handler always performs
`cleanUp` first, whatever the error code; it writes no response on
`operation_aborted` and on other wait errors, and writes `internalError`
exactly on an uncancelled, error-free expiry with an attached client
response. -/
theorem c4_expiry_always_cleanup (s : SessionState) (hasResp : Bool) :
    fwAvailableTimerCallback s TimerEc.operationAborted hasResp
      = (cleanUp s, []) ∧
    fwAvailableTimerCallback s TimerEc.otherError hasResp = (cleanUp s, []) ∧
    fwAvailableTimerCallback s TimerEc.success true
      = (cleanUp s, [.internalError]) ∧
    fwAvailableTimerCallback s TimerEc.success false = (cleanUp s, []) :=
  ⟨rfl, rfl, rfl, rfl⟩

/-- C5 (counterexample): a progress signal carrying the byte 150 — outside
0..100 — is not rejected: the task callback stores it in `percentComplete`,
appends a progress message (not `internalError`) and keeps the task alive. -/
theorem c5_progress_150_accepted :
    taskCallback false progressIface [("Progress", DbusVariant.byte 150)]
        (initialTask 0)
      = ({ initialTask 0 with
            percentComplete := 150
            messages := [.taskProgressChanged "0" 150]
            extendedTimerMinutes := some 5 }, false) ∧
    ¬(150 ≤ 100) :=
  ⟨rfl, by decide⟩

/-- C5 (amended): only a `Progress` payload of the wrong D-Bus type is
rejected with `InternalError` (terminating the task); every delivered byte is
stored verbatim in `percentComplete` — there is no 0..100 range check — so the
observed percent sequence equals the delivered sequence: the final percent is
the last delivered value, and the observed sequence is monotonically
non-decreasing exactly when the delivered sequence is. -/
theorem c5_progress_byte_stored_monotone :
    (∀ (t : TaskData) (sv : String),
      taskCallback false progressIface [("Progress", DbusVariant.str sv)] t
        = ({ t with messages := t.messages ++ [.internalError] }, true)) ∧
    (∀ (t : TaskData) (p : Nat),
      taskCallback false progressIface [("Progress", DbusVariant.byte p)] t
        = ({ t with
              percentComplete := p
              messages := t.messages
                ++ [.taskProgressChanged (toString t.index) p]
              extendedTimerMinutes := some 5 }, false)) ∧
    (∀ (t : TaskData) (ps : List Nat),
      (applyProgressSignals t ps).percentComplete
        = ps.getLastD t.percentComplete) ∧
    (∀ (t : TaskData) (ps : List Nat),
      List.Chain' (· ≤ ·) ps →
        List.Chain' (· ≤ ·) (observedPercents t ps)) := by
  refine ⟨fun t sv => rfl, fun t p => rfl, ?_, ?_⟩
  · intro t ps
    induction ps generalizing t with
    | nil => rfl
    | cons p rest ih =>
      have h1 : applyProgressSignals t (p :: rest)
          = applyProgressSignals
              ((taskCallback false progressIface
                [("Progress", DbusVariant.byte p)] t).1) rest := rfl
      rw [h1, ih, List.getLastD_cons]
      rfl
  · intro t ps h
    rw [observedPercents_eq]
    exact h

/-- Witness for `c5_progress_byte_stored_monotone`: a non-decreasing delivered
sequence yields a non-decreasing observed percent sequence. -/
theorem c5_progress_byte_stored_monotone_witness :
    List.Chain' (· ≤ ·) (observedPercents (initialTask 0) [10, 20, 20]) :=
  c5_progress_byte_stored_monotone.2.2.2 (initialTask 0) [10, 20, 20]
    (by norm_num [List.chain'_cons, List.chain'_singleton])

/-- C6 (counterexample): suffix matching is not case-independent — the
activation value `"SomethingACTIVE"`, which ends in `Active` up to case, does
not match `ends_with("Active")` and causes no transition: the task stays
`Running` instead of becoming `Completed`. -/
theorem c6_uppercase_active_no_transition :
    taskCallback false activationIface
        [("Activation", DbusVariant.str "SomethingACTIVE")] (initialTask 0)
      = (initialTask 0, false) ∧
    endsWithS "SomethingACTIVE" "Active" = false ∧
    (initialTask 0).state = "Running" := by
  exact ⟨by decide, by decide, rfl⟩

/-- C6 (amended): activation-state matching is prefix-independent and
suffix-exact but case-SENSITIVE (`std::string::ends_with`): a value ending in
`Invalid` or `Failed` goes to `Exception`, one ending in `Staged` goes to
`Stopping`, one ending in `Active` goes to `Completed`, and a value matching
none of the four suffixes exactly (e.g. `Active` only mid-string, or in the
wrong case) causes no transition. -/
theorem c6_suffix_matching (t : TaskData) (sv : String) :
    ((endsWithS sv "Invalid" || endsWithS sv "Failed") = true →
      taskCallback false activationIface [("Activation", DbusVariant.str sv)] t
        = ({ t with
              state := "Exception"
              status := "Warning"
              messages := t.messages ++ [.taskAborted (toString t.index)] },
           true)) ∧
    (endsWithS sv "Invalid" = false → endsWithS sv "Failed" = false →
      endsWithS sv "Staged" = true →
      taskCallback false activationIface [("Activation", DbusVariant.str sv)] t
        = ({ t with
              state := "Stopping"
              messages := t.messages ++ [.taskPaused (toString t.index)]
              extendedTimerMinutes := some 300 }, false)) ∧
    (endsWithS sv "Invalid" = false → endsWithS sv "Failed" = false →
      endsWithS sv "Staged" = false → endsWithS sv "Active" = true →
      taskCallback false activationIface [("Activation", DbusVariant.str sv)] t
        = ({ t with
              state := "Completed"
              messages := t.messages ++ [.taskCompletedOK (toString t.index)] },
           true)) ∧
    (endsWithS sv "Invalid" = false → endsWithS sv "Failed" = false →
      endsWithS sv "Staged" = false → endsWithS sv "Active" = false →
      taskCallback false activationIface [("Activation", DbusVariant.str sv)] t
        = (t, false)) := by
  refine ⟨?_, ?_, ?_, ?_⟩
  · intro h1
    simp [taskCallback, findActivationValue, h1]
  · intro h1 h2 h3
    simp [taskCallback, findActivationValue, h1, h2, h3]
  · intro h1 h2 h3 h4
    simp [taskCallback, findActivationValue, h1, h2, h3, h4]
  · intro h1 h2 h3 h4
    simp [taskCallback, findActivationValue, h1, h2, h3, h4]

/-- Witness for `c6_suffix_matching`: a value ending exactly in `Staged` moves
the task to `Stopping` with a pause message and the five-hour timer. -/
theorem c6_suffix_matching_witness :
    taskCallback false activationIface
        [("Activation", DbusVariant.str "xyzStaged")] (initialTask 2)
      = ({ initialTask 2 with
            state := "Stopping"
            messages := [.taskPaused "2"]
            extendedTimerMinutes := some 300 }, false) :=
  (c6_suffix_matching (initialTask 2) "xyzStaged").2.1
    (by decide) (by decide) (by decide)

/-- The task used in the C7 counterexample: a fresh task receives a `Staged`
activation transition and then a bus-level delivery error. -/
def stagedThenBusErrorTask : TrackedTask :=
  taskSignalStep
    (taskSignalStep { td := initialTask 1, matchAlive := true, timerArmed := true }
      false activationIface
      [("Activation",
        DbusVariant.str
          "xyz.openbmc_project.Software.Activation.Activations.Staged")])
    true activationIface []

/-- C7 (counterexample): after a `Staged` transition, a bus-level signal error
terminates the task (the match is released) but the recorded task state stays
`Stopping` — the callback returns `task::completed` without writing
`Completed`, so the task does not end in state `Completed` as claimed. -/
theorem c7_bus_error_after_staged_not_completed :
    stagedThenBusErrorTask.td.state = "Stopping" ∧
    stagedThenBusErrorTask.matchAlive = false ∧
    stagedThenBusErrorTask.td.state ≠ "Completed" :=
  ⟨rfl, rfl, by decide⟩

/-- C7 (amended): a bus-level signal delivery error is terminal with no
further action — the callback returns `task::completed` immediately, so the
match is released and the timer cancelled — but the task's recorded fields
(state, status, percent, messages) are left exactly as they were, neither
`Exception` nor newly set to `Completed`. -/
theorem c7_bus_error_terminal_unchanged (tk : TrackedTask) (iface : String)
    (values : List (String × DbusVariant)) (h : tk.matchAlive = true) :
    taskSignalStep tk true iface values
      = { td := tk.td, matchAlive := false, timerArmed := false } := by
  simp [taskSignalStep, taskCallback, h]

/-- Witness for `c7_bus_error_terminal_unchanged` on a fresh live task. -/
theorem c7_bus_error_terminal_unchanged_witness :
    taskSignalStep { td := initialTask 3, matchAlive := true, timerArmed := true }
        true activationIface []
      = { td := initialTask 3, matchAlive := false, timerArmed := false } :=
  c7_bus_error_terminal_unchanged _ _ _ rfl

/-- C8 (counterexample): an error-log event whose message identifier merely
ends in `AlreadyExists` (here `"Foo.AlreadyExists"`) does NOT get the
two-message treatment: the classification is by exact string equality, so the
client receives only the generic `internalError` (the timer is still
cancelled). -/
theorem c8_suffix_alreadyexists_generic_error :
    fwUpdateErrorCallback ⟨true, true, true, true⟩ "/redfish/v1/UpdateService"
        [(loggingEntryIface, [("Message", DbusVariant.str "Foo.AlreadyExists")])]
      = (⟨true, true, true, false⟩, [.internalError]) ∧
    endsWithS "Foo.AlreadyExists" "AlreadyExists" = true :=
  ⟨rfl, by decide⟩

/-- C8 (amended): an error-log event whose string message identifier is
exactly `xyz.openbmc_project.Software.Version.Error.AlreadyExists` cancels the
availability timer and emits both the "invalid upload" and the "resource
already exists" messages; identifiers that only end in `AlreadyExists` fall to
the generic `internalError` arm. -/
theorem c8_exact_alreadyexists_two_messages (s : SessionState) (url : String) :
    fwUpdateErrorCallback s url
        [(loggingEntryIface, [("Message", DbusVariant.str alreadyExistsErr)])]
      = ({ s with fwAvailableTimer := false },
         [.invalidUpload url "Image version already exists",
          .resourceAlreadyExists "UpdateService" "Version" "uploaded version"]) :=
  rfl

/-- C9 (code bug): for `ImageURI = "tftp:x"` with `TransferProtocol` absent,
the separator check of the SimpleUpdate handler passes (`:` found at index 4,
and 4 + 1 ≤ 6), yet `imageURI.substr(separator + 3)` is evaluated at position
7 > 6 and throws `std::out_of_range` — modelled as the `outOfRange` outcome —
contradicting the claimed in-bounds property. -/
theorem c9_tftp_colon_x_out_of_range :
    strFind "tftp:x" ':' = some 4 ∧
    4 + 1 ≤ ("tftp:x" : String).length ∧
    cppSubstrFrom "tftp:x" (4 + 3) = none ∧
    adjustImageURI "tftp:x" = SimpleUpdateStep.outOfRange :=
  ⟨by decide, by decide, by decide, by decide⟩

/-- C10 (counterexample): a multipart request whose first part is an
`UpdateParameters` part with two targets and whose second part lacks
`Content-Disposition` does NOT leave the response untouched: the scan hits the
two-target validation error first and writes `propertyValueFormatError`, even
though the request contains a header-less part. -/
theorem c10_headerless_after_bad_targets_writes_error :
    updateMultipartContext initState false
        [paramsPartOf [bmcTargetUrl, bmcTargetUrl], noHeaderPart]
      = (initState, [.propertyValueFormatError "Targets" ""], none) ∧
    noHeaderPart.contentDisposition = none :=
  ⟨rfl, rfl⟩

/-- C10 (amended): when the part scan reaches a form part without a
`Content-Disposition` header before any earlier part has triggered an error
return — in particular whenever such a part comes first —
`updateMultipartContext` returns immediately with no message written, no
failure status and no file written, leaving response and session state as the
caller left them. -/
theorem c10_headerless_first_silent (s : SessionState) (writeBad : Bool)
    (p : FormPart) (rest : List FormPart) (h : p.contentDisposition = none) :
    updateMultipartContext s writeBad (p :: rest) = (s, [], none) := by
  simp [updateMultipartContext, processParts, h]

/-- Witness for `c10_headerless_first_silent` on a one-part request. -/
theorem c10_headerless_first_silent_witness :
    updateMultipartContext initState false [noHeaderPart]
      = (initState, [], none) :=
  c10_headerless_first_silent initState false noHeaderPart [] rfl
